import Mathlib

/-!
# OpenHMD / Vive Libre driver: sample reordering, validity filter, light batching

Shallow embedding of `src/drv_htc_vive/vl_driver.cpp`.

* `uint32_t` and `uint8_t` values are natural numbers; every operation that can
  wrap is written with an explicit `% 2^32` or `% 256`.
* The fusion object (`vl_fusion`, an external collaborator) is represented by the
  trace of `update` calls made on it.
* The HID transport is represented by the stream of poll results it delivers.
-/

namespace OpenHMD

/-! ## Machine integers -/

/-- Value of the C constant `UINT32_MAX`. -/
def UINT32_MAX : Nat := 4294967295

/-- Subtraction `a - b` of two `uint32_t` operands: the result wraps modulo `2^32`. -/
def sub_u32 (a b : Nat) : Nat := (a + 4294967296 - b) % 4294967296

/-! ## `is_timestamp_valid` and `get_lowest_index` (vl_driver.cpp 269-280) -/

/-- Embedding of `static bool is_timestamp_valid(uint32_t t1, uint32_t t2)`. -/
def is_timestamp_valid (t1 t2 : Nat) : Bool :=
  t1 != t2 && (
    (decide (t1 < t2) && decide (sub_u32 t2 t1 > UINT32_MAX >>> 2)) ||
    (decide (t1 > t2) && decide (sub_u32 t1 t2 < UINT32_MAX >>> 2)))

/-- Embedding of `static int get_lowest_index(uint8_t s0, uint8_t s1, uint8_t s2)`;
the cast `(uint8_t)(s + 2)` is `(s + 2) % 256`. -/
def get_lowest_index (s0 s1 s2 : Nat) : Nat :=
  if s0 == (s1 + 2) % 256 then 1
  else if s1 == (s2 + 2) % 256 then 2
  else 0

/-! ## IMU report data and driver state -/

/-- Modelled from the spec: the declaration of `vive_headset_imu_sample` (its header is
not among the sources). Per spec section 3 a sample holds three signed 16-bit raw
accelerometer values, three signed 16-bit raw gyroscope values, a 32-bit tick counter
and an 8-bit sequence number. -/
structure vive_headset_imu_sample where
  acc : Int × Int × Int
  rot : Int × Int × Int
  time_ticks : Nat
  seq : Nat
deriving DecidableEq, Repr

/-- Modelled from the spec: the declaration of `vive_headset_imu_report`, three samples
per report (`pkt.samples[0..2]`). -/
structure vive_headset_imu_report where
  samples : Fin 3 → vive_headset_imu_sample

/-- One call `sensor_fusion->update(dt, vec3_gyro, vec3_accel)`. The fusion object is an
external collaborator, so the call is recorded rather than executed: `dticks` is the
`uint32_t` operand of `dt = FREQ_48MHZ * (sample.time_ticks - previous_ticks)` and
`sample` is the local copy whose `rot` and `acc` are converted and passed. -/
structure fusion_update where
  dticks : Nat
  sample : vive_headset_imu_sample
deriving DecidableEq, Repr

/-- Modelled from the spec: the members of class `vl_driver` that `_update_pose` reads
and writes (the class declaration is not among the sources): `previous_ticks`, a
`uint32_t` with 0 meaning that no baseline exists yet, and the fusion state, kept here
as the list of `update` calls made on it so far. -/
structure vl_driver where
  previous_ticks : Nat
  sensor_fusion : List fusion_update
deriving DecidableEq, Repr

/-- State of a freshly constructed driver: the constructor sets `previous_ticks = 0`. -/
def vl_driver.fresh : vl_driver := { previous_ticks := 0, sensor_fusion := [] }

/-- A report from its three samples in slot order. -/
def vive_headset_imu_report.of (a b c : vive_headset_imu_sample) :
    vive_headset_imu_report :=
  { samples := fun i => match i with
      | 0 => a
      | 1 => b
      | 2 => c }

/-- Body of the `for` loop of `vl_driver::_update_pose` for one value of `index`
(vl_driver.cpp 291-304). -/
def vl_driver.process_sample (pkt : vive_headset_imu_report) (drv : vl_driver)
    (index : Fin 3) : vl_driver :=
  let sample := pkt.samples index
  if drv.previous_ticks == 0 then
    { drv with previous_ticks := sample.time_ticks }
  else if is_timestamp_valid sample.time_ticks drv.previous_ticks then
    { previous_ticks := (pkt.samples index).time_ticks
      sensor_fusion := drv.sensor_fusion ++
        [{ dticks := sub_u32 sample.time_ticks drv.previous_ticks, sample := sample }] }
  else drv

/-- The value `li` computed at the top of `_update_pose`. -/
def vl_driver.lowest_index (pkt : vive_headset_imu_report) : Nat :=
  get_lowest_index (pkt.samples 0).seq (pkt.samples 1).seq (pkt.samples 2).seq

/-- The loop line `int index = (li + offset) % 3`. -/
def vl_driver.index_at (pkt : vive_headset_imu_report) (offset : Nat) : Fin 3 :=
  ⟨(vl_driver.lowest_index pkt + offset) % 3, Nat.mod_lt _ (by decide)⟩

/-- The first `n` iterations `offset = 0, ..., n - 1` of the loop of `_update_pose`. -/
def vl_driver._update_pose_loop (pkt : vive_headset_imu_report) (drv : vl_driver)
    (n : Nat) : vl_driver :=
  (List.range n).foldl
    (fun d offset => vl_driver.process_sample pkt d (vl_driver.index_at pkt offset)) drv

/-- Embedding of `void vl_driver::_update_pose(const vive_headset_imu_report &pkt)`:
`for (int offset = 0; offset < 3; offset++)`. -/
def vl_driver._update_pose (pkt : vive_headset_imu_report) (drv : vl_driver) : vl_driver :=
  vl_driver._update_pose_loop pkt drv 3

/-- Feeding a stream of reports through `_update_pose`, one call per report. -/
def vl_driver.update_stream (drv : vl_driver) (pkts : List vive_headset_imu_report) :
    vl_driver :=
  pkts.foldl (fun d pkt => vl_driver._update_pose pkt d) drv

/-! ## Vocabulary for statements about `_update_pose` -/

/-- The value of `previous_ticks` in force when the sample at loop position `offset`
is visited, i.e. after the iterations `0, ..., offset - 1`. -/
def vl_driver.ticks_in_force (pkt : vive_headset_imu_report) (drv : vl_driver)
    (offset : Nat) : Nat :=
  (vl_driver._update_pose_loop pkt drv offset).previous_ticks

/-- The tick of the sample visited at loop position `offset`. -/
def vl_driver.tick_at (pkt : vive_headset_imu_report) (offset : Nat) : Nat :=
  (pkt.samples (vl_driver.index_at pkt offset)).time_ticks

/-- The sample visited at `offset` is neither taken as the baseline (`previous_ticks`
is 0 when it is visited) nor rejected by `is_timestamp_valid`. -/
def vl_driver.fused_at (pkt : vive_headset_imu_report) (drv : vl_driver)
    (offset : Nat) : Bool :=
  vl_driver.ticks_in_force pkt drv offset != 0 &&
    is_timestamp_valid (vl_driver.tick_at pkt offset) (vl_driver.ticks_in_force pkt drv offset)

/-- The fusion call for the sample visited at `offset`. -/
def vl_driver.call_at (pkt : vive_headset_imu_report) (drv : vl_driver)
    (offset : Nat) : fusion_update :=
  { dticks := sub_u32 (vl_driver.tick_at pkt offset) (vl_driver.ticks_in_force pkt drv offset)
    sample := pkt.samples (vl_driver.index_at pkt offset) }

/-- The fusion calls made while processing `pkt`: what `_update_pose` appended to the
trace. -/
def vl_driver.new_calls (pkt : vive_headset_imu_report) (drv : vl_driver) :
    List fusion_update :=
  (vl_driver._update_pose pkt drv).sensor_fusion.drop drv.sensor_fusion.length

/-- On the wrapping 32-bit tick counter, `b` follows `a`: either `b` is later than `a`
by fewer than `2^30 - 1` ticks, or `b` is below `a` by more than `2^30 - 1` ticks (the
counter wrapped between the two). -/
def tick_follows (a b : Nat) : Prop :=
  (a < b ∧ b - a < 1073741823) ∨ (b < a ∧ 1073741823 < a - b)

/-- The ticks of the samples fed to fusion while processing `pkt`, in call order. -/
def vl_driver.fused_ticks (pkt : vive_headset_imu_report) (drv : vl_driver) : List Nat :=
  (vl_driver.new_calls pkt drv).map (fun c => c.sample.time_ticks)

/-! ## Concrete packets and driver states -/

/-- A sample with the given sequence number and tick, and zero inertial readings. -/
def imu_sample (seq ticks : Nat) : vive_headset_imu_sample :=
  { acc := (0, 0, 0), rot := (0, 0, 0), time_ticks := ticks, seq := seq }

/-- A report from the sequence numbers and ticks of its three slots. -/
def imu_report (s0 s1 s2 t0 t1 t2 : Nat) : vive_headset_imu_report :=
  vive_headset_imu_report.of (imu_sample s0 t0) (imu_sample s1 t1) (imu_sample s2 t2)

/-- A driver state with a baseline and an empty fusion trace. -/
def driver_at (ticks : Nat) : vl_driver := { previous_ticks := ticks, sensor_fusion := [] }

/-! ## Light-sample batching (vl_driver.cpp 350-370 and 429-465) -/

/-- Modelled from the spec: the element type of `vl_lighthouse_samples` (declared in
`vl_light.h`, not among the sources). Per spec section 3 a pulse sample holds a
timestamp, a sensor id and a pulse length. -/
structure lighthouse_pulse where
  timestamp : Nat
  sensor_id : Nat
  length : Nat
deriving DecidableEq, Repr

/-- Modelled from the spec: the raw report handed to a `query_fun` callback (spec
section 3, RawReport): `tag` is the byte `buffer[0]`, `payload` the bytes after it. -/
structure hid_report where
  tag : Nat
  payload : List Nat
deriving DecidableEq, Repr

/-- Modelled from the spec: the items of `vl_messages.h` used by the batching code and
not among the sources: the tag constant `VL_MSG_HMD_LIGHT` and the decoder
`vl_msg_decode_hmd_light`, which fills `pkt.samples[0..8]` from a buffer. -/
structure light_protocol where
  VL_MSG_HMD_LIGHT : Nat
  vl_msg_decode_hmd_light : hid_report → Fin 9 → lighthouse_pulse

/-- Embedding of the lambda `read_hmd_light` of `poll_angles` and `poll_pnp`: the batch
`raw_light_samples` it captures is passed in and the updated batch returned. -/
def read_hmd_light (proto : light_protocol) (raw_light_samples : List lighthouse_pulse)
    (buffer : hid_report) : List lighthouse_pulse :=
  if buffer.tag == proto.VL_MSG_HMD_LIGHT then
    let pkt := proto.vl_msg_decode_hmd_light buffer
    (List.finRange 9).foldl (fun raw i => raw ++ [pkt i]) raw_light_samples
  else raw_light_samples

/-- Modelled from the spec: `hid_query(dev, fun)`, defined in `vl_driver.h`, which is not
among the sources. Per spec section 6 (PollReport) one poll invokes the callback 0 or 1
times and never blocks; `polled` is what the handle delivers at this poll. -/
def hid_query {σ : Type} (polled : Option hid_report) (f : σ → hid_report → σ) (st : σ) : σ :=
  match polled with
  | none => st
  | some buffer => f st buffer

/-- Embedding of the loop
`while (raw_light_samples->size() < samples) hid_query(hmd_light_sensor_device, read_hmd_light);`
run against the sequence `device` of poll outcomes of the light-sensor handle. The result
is the batch at loop exit together with the outcomes not yet polled; it is `none` when
the outcomes are used up while the loop is still waiting for samples. -/
def poll_loop (proto : light_protocol) (samples : Nat) (raw_light_samples : List lighthouse_pulse) :
    List (Option hid_report) → Option (List lighthouse_pulse × List (Option hid_report))
  | [] => if raw_light_samples.length < samples then none else some (raw_light_samples, [])
  | polled :: rest =>
    if raw_light_samples.length < samples then
      poll_loop proto samples (hid_query polled (read_hmd_light proto) raw_light_samples) rest
    else some (raw_light_samples, polled :: rest)

/-- Embedding of `vl_driver::poll_angles(char channel, uint32_t samples)`. The angle
extraction `vl_light_std_angles_from_samples` is an external capability and a parameter. -/
def vl_driver.poll_angles {β : Type} (proto : light_protocol)
    (vl_light_std_angles_from_samples : Char → List lighthouse_pulse → β)
    (channel : Char) (samples : Nat) (device : List (Option hid_report)) :
    Option (β × List (Option hid_report)) :=
  let raw_light_samples : List lighthouse_pulse := []
  match poll_loop proto samples raw_light_samples device with
  | none => none
  | some (raw, rest) => some (vl_light_std_angles_from_samples channel raw, rest)

/-- Embedding of `vl_driver::poll_pnp(char channel, uint32_t samples)`. The pose solve
`try_pnp` is an external capability and a parameter, `config_sensor_positions` is the
calibration map of the driver. -/
def vl_driver.poll_pnp {β γ : Type} (proto : light_protocol)
    (try_pnp : Char → List lighthouse_pulse → γ → β) (config_sensor_positions : γ)
    (channel : Char) (samples : Nat) (device : List (Option hid_report)) :
    Option (β × List (Option hid_report)) :=
  let raw_light_samples : List lighthouse_pulse := []
  match poll_loop proto samples raw_light_samples device with
  | none => none
  | some (raw, rest) => some (try_pnp channel raw config_sensor_positions, rest)

/-- The reports among the poll outcomes `polled` whose tag byte is `VL_MSG_HMD_LIGHT`,
in arrival order. -/
def light_reports (proto : light_protocol) (polled : List (Option hid_report)) :
    List hid_report :=
  (polled.filterMap id).filter (fun r => r.tag == proto.VL_MSG_HMD_LIGHT)

/-- The nine samples of a report, indices 0 to 8 in order. -/
def samples_of (proto : light_protocol) (r : hid_report) : List lighthouse_pulse :=
  (List.finRange 9).map (proto.vl_msg_decode_hmd_light r)

/-- A protocol instance for concrete evaluation: tag 37, and a decoder that numbers the
nine pulses of a report from its first payload byte. -/
def demo_protocol : light_protocol :=
  { VL_MSG_HMD_LIGHT := 37
    vl_msg_decode_hmd_light := fun r i =>
      { timestamp := r.payload.headD 0 + i.val, sensor_id := i.val, length := 1 } }

/-- Poll outcomes for concrete evaluation: nothing, a light report, an IMU report (tag
32), nothing, and two more light reports. -/
def demo_device : List (Option hid_report) :=
  [none, some ⟨37, [100]⟩, some ⟨32, [5]⟩, none, some ⟨37, [200]⟩, some ⟨37, [300]⟩]

/-! ## Opening the devices (vl_driver.cpp 56-70, 92-206, 376-427) -/

/-- Why a call does not return to its caller: the execution has undefined behaviour, or
an exception leaves the function. -/
inductive abort where
  | undefined_behaviour
  | exception
deriving DecidableEq, Repr

/-- What the jsoncpp calls of `get_config_positions` make of a configuration text:
`Json::parseFromStream` returns false; or it succeeds and one of the accesses
`root.get("mb_serial_number", ...).asString()`, `root["lighthouse_config"]["modelPoints"]`
throws; or `modelPoints` is reached and lists, for each `index` below
`modelPoints.size()`, the three strings `point[0].asString()`, `point[1].asString()`,
`point[2].asString()`, or `none` when one of these accesses throws. -/
inductive config_json where
  | parse_failed
  | access_throws
  | model_points (points : List (Option (String × String × String)))

/-- The libraries around the driver, external collaborators. hidapi: the paths of the
device infos that `hid_enumerate(vendor, product)` lists, in order; the handle that
`hid_open_path` returns for a path (`none` for `NULL`); the return value of
`hid_set_nonblocking(handle, 1)`. Configuration: the text that `vl_get_config` fetches
through a handle (`vl_config.h` is not among the sources; spec section 6, FetchRawConfig);
what jsoncpp makes of a text; and the value `(float) std::stod(s)` by its bit pattern,
`none` when `std::stod` throws. -/
structure hid_world where
  hid_enumerate : Nat → Nat → List Nat
  hid_open_path : Nat → Option Nat
  hid_set_nonblocking : Nat → Int
  vl_get_config : Option Nat → String
  parse_config : String → config_json
  stod : String → Option Nat

/-- Modelled from the spec: the members of class `vl_driver` that `open_devices` assigns
(the class declaration is not among the sources): the four device handles (`none` for
`NULL`), the calibration map from sensor id to the three coordinates, and the fusion
object (`none` while no `vl_fusion` has been created, `some []` for a new one without
calls). -/
structure vl_driver_devices where
  hmd_device : Option Nat
  hmd_imu_device : Option Nat
  hmd_light_sensor_device : Option Nat
  watchman_dongle_device : Option Nat
  config_sensor_positions : List (Nat × Nat × Nat × Nat)
  sensor_fusion : Option (List fusion_update)
deriving DecidableEq, Repr

/-- The `while (cur_dev)` loop of `open_device_idx` over the remaining device infos, with
the loop variables `idx`, `iface_cur` and `ret`. When `hid_open_path` returns `NULL` for
the matching info, the source calls `_hid_to_unix_path` (vl_driver.cpp 92-106), which
writes up to six bytes into the four-byte arrays `bus` and `dev` with `sprintf`, and
then passes memory obtained from `new[]` to `free`: the behaviour is undefined and no
return value is modelled. Otherwise the loop runs to the end of the list and yields
`ret`. -/
def open_device_scan (w : hid_world) (iface iface_tot device_index : Nat) :
    List Nat → Nat → Nat → Option Nat → Except abort (Option Nat)
  | [], _, _, ret => Except.ok ret
  | path :: rest, idx, iface_cur, ret =>
    if idx == device_index && iface == iface_cur then
      match w.hid_open_path path with
      | none => Except.error abort.undefined_behaviour
      | some handle =>
        if iface_cur + 1 ≥ iface_tot then
          open_device_scan w iface iface_tot device_index rest (idx + 1) 0 (some handle)
        else
          open_device_scan w iface iface_tot device_index rest idx (iface_cur + 1) (some handle)
    else
      if iface_cur + 1 ≥ iface_tot then
        open_device_scan w iface iface_tot device_index rest (idx + 1) 0 ret
      else
        open_device_scan w iface iface_tot device_index rest idx (iface_cur + 1) ret

/-- Embedding of `static hid_device* open_device_idx(manufacturer, product, iface,
iface_tot, device_index)`; `Except.ok none` is a returned `NULL`: nothing enumerated, no
matching device info, or `hid_set_nonblocking` returned -1. -/
def open_device_idx (w : hid_world) (manufacturer product iface iface_tot device_index : Nat) :
    Except abort (Option Nat) :=
  let devs := w.hid_enumerate manufacturer product
  if devs.isEmpty then Except.ok none
  else
    match open_device_scan w iface iface_tot device_index devs 0 0 none with
    | Except.error e => Except.error e
    | Except.ok none => Except.ok none
    | Except.ok (some ret) =>
      if w.hid_set_nonblocking ret == -1 then Except.ok none else Except.ok (some ret)

/-- The four handle members by position: 0 display, 1 IMU, 2 light sensor, 3 dongle. -/
def vl_driver_devices.handle (drv : vl_driver_devices) : Nat → Option Nat
  | 0 => drv.hmd_device
  | 1 => drv.hmd_imu_device
  | 2 => drv.hmd_light_sensor_device
  | _ => drv.watchman_dongle_device

/-! ## The lock around the light-sensor handle (vl_driver.cpp 263-267, 366-367, 447-448) -/

/-- What an operation does to `mutex_hmd_device` and to the light-sensor handle:
`mutex_hmd_device.lock()`, `mutex_hmd_device.unlock()`, and one
`hid_query(hmd_light_sensor_device, ...)`. -/
inductive light_event where
  | lock
  | unlock
  | query
deriving DecidableEq, Repr

/-- The events of `vl_driver::log_hmd_light(dev)`, in program order. -/
def vl_driver.log_hmd_light_events : List light_event :=
  [light_event.lock, light_event.query, light_event.unlock]

/-- The events of the loop
`while (raw_light_samples->size() < samples) hid_query(hmd_light_sensor_device, read_hmd_light);`
one `query` per iteration, for the poll outcomes that `poll_loop` runs against. -/
def poll_loop_events (proto : light_protocol) (samples : Nat)
    (raw_light_samples : List lighthouse_pulse) : List (Option hid_report) → List light_event
  | [] => []
  | polled :: rest =>
    if raw_light_samples.length < samples then
      light_event.query ::
        poll_loop_events proto samples (hid_query polled (read_hmd_light proto) raw_light_samples)
          rest
    else []

/-- The events of `vl_driver::poll_angles`: those of its loop; the function does not
touch the mutex. -/
def vl_driver.poll_angles_events (proto : light_protocol) (samples : Nat)
    (device : List (Option hid_report)) : List light_event :=
  poll_loop_events proto samples [] device

/-- The events of `vl_driver::poll_pnp`: those of its loop; the function does not touch
the mutex. -/
def vl_driver.poll_pnp_events (proto : light_protocol) (samples : Nat)
    (device : List (Option hid_report)) : List light_event :=
  poll_loop_events proto samples [] device

/-- Every `query` of the event list happens while the mutex is held, `held` telling
whether it is held at the start. -/
def queries_locked : Bool → List light_event → Bool
  | _, [] => true
  | _, light_event.lock :: es => queries_locked true es
  | _, light_event.unlock :: es => queries_locked false es
  | held, light_event.query :: es => held && queries_locked held es

/-! ## Theorems -/

/-- The shifted constant `UINT32_MAX >> 2` is `2^30 - 1`. -/
theorem uint32_max_shr_two : UINT32_MAX >>> 2 = 1073741823 := by decide

/-- Arithmetic reading of `is_timestamp_valid` on in-range operands. -/
theorem is_timestamp_valid_iff (t1 t2 : Nat) (h1 : t1 < 4294967296) (h2 : t2 < 4294967296) :
    is_timestamp_valid t1 t2 = true ↔
      t1 ≠ t2 ∧ ((t2 < t1 ∧ t1 - t2 < 1073741823) ∨ (t1 < t2 ∧ 1073741823 < t2 - t1)) := by
  have hc : UINT32_MAX >>> 2 = 1073741823 := uint32_max_shr_two
  simp only [is_timestamp_valid, sub_u32, hc, Bool.and_eq_true, Bool.or_eq_true,
    decide_eq_true_eq, bne_iff_ne, ne_eq, gt_iff_lt]
  constructor
  · rintro ⟨hne, h | h⟩
    · refine ⟨hne, Or.inr ⟨h.1, ?_⟩⟩
      have := h.2
      omega
    · refine ⟨hne, Or.inl ⟨h.1, ?_⟩⟩
      have := h.2
      omega
  · rintro ⟨hne, h | h⟩
    · refine ⟨hne, Or.inr ⟨h.1, ?_⟩⟩
      have := h.2
      omega
    · refine ⟨hne, Or.inl ⟨h.1, ?_⟩⟩
      have := h.2
      omega

/-- C1: for 32-bit unsigned `t1`, `t2`, `is_timestamp_valid t1 t2` holds exactly when
`t1 ≠ t2` and either `t1 > t2` with `t1 - t2 < UINT32_MAX >> 2`, or `t1 < t2` with
`t2 - t1 > UINT32_MAX >> 2`, where `UINT32_MAX >> 2 = 2^30 - 1 = 1073741823`;
`(100, 50)` is valid, `(50, 100)` is not, `(10, 4294967290)` is valid and `(x, x)` is
never valid. -/
theorem C1_is_timestamp_valid_contract (t1 t2 : Nat)
    (h1 : t1 < 2 ^ 32) (h2 : t2 < 2 ^ 32) :
    (is_timestamp_valid t1 t2 = true ↔
      t1 ≠ t2 ∧ ((t1 > t2 ∧ t1 - t2 < UINT32_MAX >>> 2) ∨
                 (t1 < t2 ∧ t2 - t1 > UINT32_MAX >>> 2))) ∧
    UINT32_MAX >>> 2 = 2 ^ 30 - 1 ∧ UINT32_MAX >>> 2 = 1073741823 ∧
    is_timestamp_valid 100 50 = true ∧
    is_timestamp_valid 50 100 = false ∧
    is_timestamp_valid 10 4294967290 = true ∧
    is_timestamp_valid t1 t1 = false := by
  refine ⟨?_, by decide, by decide, by decide, by decide, by decide, ?_⟩
  · rw [uint32_max_shr_two]
    exact is_timestamp_valid_iff t1 t2 (by omega) (by omega)
  · simp [is_timestamp_valid]

/-- Witness for C1 at `t1 = 10`, `t2 = 4294967290` (an accepted wraparound). -/
theorem C1_is_timestamp_valid_contract_witness :
    (10 < 2 ^ 32 ∧ 4294967290 < 2 ^ 32) ∧
    is_timestamp_valid 10 4294967290 = true ∧ is_timestamp_valid 10 10 = false :=
  ⟨⟨by decide, by decide⟩,
   (C1_is_timestamp_valid_contract 10 4294967290 (by decide) (by decide)).2.2.2.2.2.1,
   (C1_is_timestamp_valid_contract 10 4294967290 (by decide) (by decide)).2.2.2.2.2.2⟩

/-- The result of `get_lowest_index` is one of 0, 1, 2. -/
theorem get_lowest_index_le (s0 s1 s2 : Nat) : get_lowest_index s0 s1 s2 ≤ 2 := by
  unfold get_lowest_index
  split_ifs <;> omega

/-- C2: `get_lowest_index s0 s1 s2` is 1 if `s0 = (s1 + 2) mod 256`, otherwise 2 if
`s1 = (s2 + 2) mod 256`, otherwise 0; the additions wrap at 256 (`s0 = 1`, `s1 = 255`
selects 1); `(5,3,1)` gives 1, `(1,5,3)` gives 2, `(3,1,5)` gives 1, `(0,0,0)` gives 0;
the result is always one of 0, 1, 2. -/
theorem C2_get_lowest_index_contract (s0 s1 s2 : Nat) :
    (s0 = (s1 + 2) % 256 → get_lowest_index s0 s1 s2 = 1) ∧
    (s0 ≠ (s1 + 2) % 256 → s1 = (s2 + 2) % 256 → get_lowest_index s0 s1 s2 = 2) ∧
    (s0 ≠ (s1 + 2) % 256 → s1 ≠ (s2 + 2) % 256 → get_lowest_index s0 s1 s2 = 0) ∧
    get_lowest_index 1 255 s2 = 1 ∧
    get_lowest_index 5 3 1 = 1 ∧
    get_lowest_index 1 5 3 = 2 ∧
    get_lowest_index 3 1 5 = 1 ∧
    get_lowest_index 0 0 0 = 0 ∧
    (get_lowest_index s0 s1 s2 = 0 ∨ get_lowest_index s0 s1 s2 = 1 ∨
      get_lowest_index s0 s1 s2 = 2) := by
  refine ⟨?_, ?_, ?_, ?_, by decide, by decide, by decide, by decide, ?_⟩
  · intro h
    simp [get_lowest_index, h]
  · intro h h'
    simp only [get_lowest_index, beq_iff_eq]
    rw [if_neg h, if_pos h']
  · intro h h'
    simp only [get_lowest_index, beq_iff_eq]
    rw [if_neg h, if_neg h']
  · simp [get_lowest_index]
  · have := get_lowest_index_le s0 s1 s2
    omega

/-- Witness for C2 at the wrapping input `(1, 255, 7)` and at `(1, 5, 3)`. -/
theorem C2_get_lowest_index_contract_witness :
    (1 = (255 + 2) % 256 ∧ get_lowest_index 1 255 7 = 1) ∧
    ((1 ≠ (5 + 2) % 256 ∧ 5 = (3 + 2) % 256) ∧ get_lowest_index 1 5 3 = 2) :=
  ⟨⟨by decide, (C2_get_lowest_index_contract 1 255 7).1 (by decide)⟩,
   ⟨⟨by decide, by decide⟩,
    (C2_get_lowest_index_contract 1 5 3).2.1 (by decide) (by decide)⟩⟩

/-! ### `_update_pose`: structure of the loop -/

theorem update_pose_loop_zero (pkt : vive_headset_imu_report) (drv : vl_driver) :
    vl_driver._update_pose_loop pkt drv 0 = drv := by
  simp [vl_driver._update_pose_loop]

theorem update_pose_loop_succ (pkt : vive_headset_imu_report) (drv : vl_driver) (n : Nat) :
    vl_driver._update_pose_loop pkt drv (n + 1) =
      vl_driver.process_sample pkt (vl_driver._update_pose_loop pkt drv n)
        (vl_driver.index_at pkt n) := by
  simp [vl_driver._update_pose_loop, List.range_succ, List.foldl_append]

/-- The loop visits the indices `index_at 0`, `index_at 1`, `index_at 2`, in this order. -/
theorem update_pose_eq_foldl (pkt : vive_headset_imu_report) (drv : vl_driver) :
    vl_driver._update_pose pkt drv =
      [vl_driver.index_at pkt 0, vl_driver.index_at pkt 1, vl_driver.index_at pkt 2].foldl
        (vl_driver.process_sample pkt) drv := by
  simp [vl_driver._update_pose, update_pose_loop_succ, update_pose_loop_zero]

/-- What one iteration does to the fusion trace. -/
theorem process_sample_fusion (pkt : vive_headset_imu_report) (d : vl_driver) (i : Fin 3) :
    (vl_driver.process_sample pkt d i).sensor_fusion =
      d.sensor_fusion ++
        (if (d.previous_ticks != 0 &&
              is_timestamp_valid (pkt.samples i).time_ticks d.previous_ticks) = true
         then [{ dticks := sub_u32 (pkt.samples i).time_ticks d.previous_ticks
                 sample := pkt.samples i }]
         else []) := by
  unfold vl_driver.process_sample
  by_cases h0 : d.previous_ticks = 0
  · simp [h0]
  · by_cases hv : is_timestamp_valid (pkt.samples i).time_ticks d.previous_ticks = true
    · simp [h0, hv]
    · simp [h0, hv]

/-- What one iteration does to `previous_ticks`. -/
theorem process_sample_ticks (pkt : vive_headset_imu_report) (d : vl_driver) (i : Fin 3) :
    (vl_driver.process_sample pkt d i).previous_ticks =
      (if d.previous_ticks = 0 then (pkt.samples i).time_ticks
       else if is_timestamp_valid (pkt.samples i).time_ticks d.previous_ticks = true
         then (pkt.samples i).time_ticks
         else d.previous_ticks) := by
  unfold vl_driver.process_sample
  by_cases h0 : d.previous_ticks = 0
  · simp [h0]
  · by_cases hv : is_timestamp_valid (pkt.samples i).time_ticks d.previous_ticks = true
    · simp [h0, hv]
    · simp [h0, hv]

/-- The fusion trace after `n` iterations: the calls of the fused positions below `n`. -/
theorem update_pose_loop_fusion (pkt : vive_headset_imu_report) (drv : vl_driver) (n : Nat) :
    (vl_driver._update_pose_loop pkt drv n).sensor_fusion =
      drv.sensor_fusion ++
        ((List.range n).filter (vl_driver.fused_at pkt drv)).map (vl_driver.call_at pkt drv) := by
  induction n with
  | zero => simp [update_pose_loop_zero]
  | succ n ih =>
    rw [update_pose_loop_succ, process_sample_fusion, ih, List.range_succ, List.filter_append,
      List.map_append, List.append_assoc]
    congr 1
    congr 1
    by_cases hf : vl_driver.fused_at pkt drv n = true
    · have hf' := hf
      simp only [vl_driver.fused_at, vl_driver.ticks_in_force, vl_driver.tick_at] at hf'
      simp [hf, hf', vl_driver.call_at, vl_driver.ticks_in_force, vl_driver.tick_at]
    · have hf' := hf
      simp only [vl_driver.fused_at, vl_driver.ticks_in_force, vl_driver.tick_at] at hf'
      simp [hf, hf']

/-- The three visited indices are `li`, `li + 1`, `li + 2` modulo 3 and cover 0, 1, 2. -/
theorem index_at_perm (pkt : vive_headset_imu_report) :
    List.Perm [vl_driver.index_at pkt 0, vl_driver.index_at pkt 1, vl_driver.index_at pkt 2]
      [0, 1, 2] := by
  have hle : vl_driver.lowest_index pkt ≤ 2 := get_lowest_index_le _ _ _
  have h : vl_driver.lowest_index pkt = 0 ∨ vl_driver.lowest_index pkt = 1 ∨
      vl_driver.lowest_index pkt = 2 := by omega
  rcases h with h | h | h
  · have e0 : vl_driver.index_at pkt 0 = 0 := Fin.ext (by simp [vl_driver.index_at, h])
    have e1 : vl_driver.index_at pkt 1 = 1 := Fin.ext (by simp [vl_driver.index_at, h])
    have e2 : vl_driver.index_at pkt 2 = 2 := Fin.ext (by simp [vl_driver.index_at, h])
    rw [e0, e1, e2]
  · have e0 : vl_driver.index_at pkt 0 = 1 := Fin.ext (by simp [vl_driver.index_at, h])
    have e1 : vl_driver.index_at pkt 1 = 2 := Fin.ext (by simp [vl_driver.index_at, h])
    have e2 : vl_driver.index_at pkt 2 = 0 := Fin.ext (by simp [vl_driver.index_at, h])
    rw [e0, e1, e2]
    decide
  · have e0 : vl_driver.index_at pkt 0 = 2 := Fin.ext (by simp [vl_driver.index_at, h])
    have e1 : vl_driver.index_at pkt 1 = 0 := Fin.ext (by simp [vl_driver.index_at, h])
    have e2 : vl_driver.index_at pkt 2 = 1 := Fin.ext (by simp [vl_driver.index_at, h])
    rw [e0, e1, e2]
    decide

/-- C3: `_update_pose` visits each of the three samples exactly once, in the index order
`li`, `(li + 1) mod 3`, `(li + 2) mod 3` with `li = get_lowest_index(seq[0], seq[1], seq[2])`;
the fusion calls it makes are exactly, in that order and one per sample, the visited
samples that were neither taken as the baseline (`previous_ticks = 0` when visited) nor
rejected by `is_timestamp_valid` against the `previous_ticks` in force when visited;
so there are at most three calls per packet and never two for the same sample. -/
theorem C3_update_pose_visits_and_calls (pkt : vive_headset_imu_report) (drv : vl_driver) :
    vl_driver._update_pose pkt drv =
      [vl_driver.index_at pkt 0, vl_driver.index_at pkt 1, vl_driver.index_at pkt 2].foldl
        (vl_driver.process_sample pkt) drv ∧
    (∀ k, (vl_driver.index_at pkt k).val =
      (get_lowest_index (pkt.samples 0).seq (pkt.samples 1).seq (pkt.samples 2).seq + k) % 3) ∧
    List.Perm [vl_driver.index_at pkt 0, vl_driver.index_at pkt 1, vl_driver.index_at pkt 2]
      [0, 1, 2] ∧
    (vl_driver._update_pose pkt drv).sensor_fusion =
      drv.sensor_fusion ++
        ((List.range 3).filter (vl_driver.fused_at pkt drv)).map (vl_driver.call_at pkt drv) ∧
    vl_driver.new_calls pkt drv =
      ((List.range 3).filter (vl_driver.fused_at pkt drv)).map (vl_driver.call_at pkt drv) ∧
    (∀ k, vl_driver.fused_at pkt drv k = true ↔
      (vl_driver.ticks_in_force pkt drv k ≠ 0 ∧
        is_timestamp_valid (pkt.samples (vl_driver.index_at pkt k)).time_ticks
          (vl_driver.ticks_in_force pkt drv k) = true)) ∧
    (∀ k, (vl_driver.call_at pkt drv k).sample = pkt.samples (vl_driver.index_at pkt k)) ∧
    (vl_driver.new_calls pkt drv).length ≤ 3 ∧
    (((List.range 3).filter (vl_driver.fused_at pkt drv)).map (vl_driver.index_at pkt)).Nodup := by
  have hfus := update_pose_loop_fusion pkt drv 3
  refine ⟨update_pose_eq_foldl pkt drv, fun k => rfl, index_at_perm pkt, hfus, ?_, ?_,
    fun k => rfl, ?_, ?_⟩
  · simp [vl_driver.new_calls, vl_driver._update_pose, hfus]
  · intro k
    simp [vl_driver.fused_at, vl_driver.tick_at]
  · have hlen : ((List.range 3).filter (vl_driver.fused_at pkt drv)).length ≤ 3 := by
      have := List.length_filter_le (vl_driver.fused_at pkt drv) (List.range 3)
      simpa using this
    simpa [vl_driver.new_calls, vl_driver._update_pose, hfus] using hlen
  · have hsub : List.Sublist
        (((List.range 3).filter (vl_driver.fused_at pkt drv)).map (vl_driver.index_at pkt))
        ((List.range 3).map (vl_driver.index_at pkt)) :=
      (List.filter_sublist _).map _
    refine List.Nodup.sublist hsub ?_
    have hperm := index_at_perm pkt
    have : (List.range 3).map (vl_driver.index_at pkt) =
        [vl_driver.index_at pkt 0, vl_driver.index_at pkt 1, vl_driver.index_at pkt 2] := by
      simp [List.range_succ]
    rw [this]
    exact hperm.nodup_iff.mpr (by decide)

/-- An iteration that rejects its sample leaves the driver state untouched. -/
theorem process_sample_rejected (pkt : vive_headset_imu_report) (d : vl_driver) (i : Fin 3)
    (h0 : d.previous_ticks ≠ 0)
    (hrej : is_timestamp_valid (pkt.samples i).time_ticks d.previous_ticks = false) :
    vl_driver.process_sample pkt d i = d := by
  unfold vl_driver.process_sample
  simp [h0, hrej]

/-- C4: with `previous_ticks ≠ 0`, processing a sample whose tick fails
`is_timestamp_valid(tick, previous_ticks)` makes no fusion call and leaves
`previous_ticks` and the fusion state exactly as they were; a packet whose three samples
are all rejected leaves the whole session state unchanged. -/
theorem C4_rejected_sample_dropped (pkt : vive_headset_imu_report) (drv : vl_driver)
    (h0 : drv.previous_ticks ≠ 0) :
    (∀ index : Fin 3,
      is_timestamp_valid (pkt.samples index).time_ticks drv.previous_ticks = false →
      vl_driver.process_sample pkt drv index = drv) ∧
    ((∀ index : Fin 3,
        is_timestamp_valid (pkt.samples index).time_ticks drv.previous_ticks = false) →
      vl_driver._update_pose pkt drv = drv ∧ vl_driver.new_calls pkt drv = []) := by
  refine ⟨fun index hrej => process_sample_rejected pkt drv index h0 hrej, fun hall => ?_⟩
  have h : vl_driver._update_pose pkt drv = drv := by
    rw [update_pose_eq_foldl]
    simp [List.foldl, process_sample_rejected pkt drv _ h0 (hall _)]
  refine ⟨h, ?_⟩
  simp [vl_driver.new_calls, h]

/-- Witness for C4: baseline 100, three samples at tick 50 (small backward jumps). -/
theorem C4_rejected_sample_dropped_witness :
    (driver_at 100).previous_ticks ≠ 0 ∧
    vl_driver.process_sample (imu_report 7 8 9 50 50 50) (driver_at 100) 1 = driver_at 100 ∧
    vl_driver._update_pose (imu_report 7 8 9 50 50 50) (driver_at 100) = driver_at 100 :=
  ⟨by decide,
   (C4_rejected_sample_dropped (imu_report 7 8 9 50 50 50) (driver_at 100) (by decide)).1 1
     (by decide),
   ((C4_rejected_sample_dropped (imu_report 7 8 9 50 50 50) (driver_at 100) (by decide)).2
     (by decide)).1⟩

/-! ### The calls made for one packet -/

/-- The calls appended by `_update_pose` are those of the fused loop positions. -/
theorem new_calls_eq (pkt : vive_headset_imu_report) (drv : vl_driver) :
    vl_driver.new_calls pkt drv =
      ((List.range 3).filter (vl_driver.fused_at pkt drv)).map (vl_driver.call_at pkt drv) := by
  simp [vl_driver.new_calls, vl_driver._update_pose, update_pose_loop_fusion pkt drv 3]

/-- `previous_ticks` stays a 32-bit value through the loop. -/
theorem update_pose_loop_ticks_lt (pkt : vive_headset_imu_report) (drv : vl_driver)
    (hpkt : ∀ i, (pkt.samples i).time_ticks < 4294967296)
    (hprev : drv.previous_ticks < 4294967296) (n : Nat) :
    (vl_driver._update_pose_loop pkt drv n).previous_ticks < 4294967296 := by
  induction n with
  | zero => simpa [update_pose_loop_zero] using hprev
  | succ n ih =>
    rw [update_pose_loop_succ, process_sample_ticks]
    split_ifs
    · exact hpkt _
    · exact hpkt _
    · exact ih

/-- Modular subtraction on 32-bit operands is subtraction of integers modulo `2^32`. -/
theorem sub_u32_int (a b : Nat) (ha : a < 4294967296) (hb : b < 4294967296) :
    ((sub_u32 a b : Nat) : Int) = ((a : Int) - (b : Int)) % 4294967296 := by
  unfold sub_u32
  omega

/-- C6: every fusion call made by `_update_pose` is for a sample that passed the validity
check against the `previous_ticks` in force (which is not 0); the tick delta from which
`dt` is computed is the unsigned 32-bit modular difference
`d = (tick - previous_ticks) mod 2^32`, with `d ≥ 1`; `d = tick - previous_ticks` when the
sample was accepted as forward progress and `d = (2^32 - previous_ticks) + tick` when it
was accepted as a wraparound; after the call `previous_ticks` equals the sample's tick. -/
theorem C6_fusion_call_delta (pkt : vive_headset_imu_report) (drv : vl_driver)
    (hpkt : ∀ i, (pkt.samples i).time_ticks < 2 ^ 32)
    (hprev : drv.previous_ticks < 2 ^ 32) :
    ∀ c ∈ vl_driver.new_calls pkt drv, ∃ offset, offset < 3 ∧
      c = vl_driver.call_at pkt drv offset ∧
      c.sample = pkt.samples (vl_driver.index_at pkt offset) ∧
      vl_driver.ticks_in_force pkt drv offset ≠ 0 ∧
      is_timestamp_valid c.sample.time_ticks (vl_driver.ticks_in_force pkt drv offset) = true ∧
      (c.dticks : Int) =
        ((c.sample.time_ticks : Int) - (vl_driver.ticks_in_force pkt drv offset : Int)) % 2 ^ 32 ∧
      1 ≤ c.dticks ∧
      (vl_driver.ticks_in_force pkt drv offset < c.sample.time_ticks →
        c.dticks = c.sample.time_ticks - vl_driver.ticks_in_force pkt drv offset) ∧
      (c.sample.time_ticks < vl_driver.ticks_in_force pkt drv offset →
        c.dticks = (2 ^ 32 - vl_driver.ticks_in_force pkt drv offset) + c.sample.time_ticks) ∧
      (vl_driver._update_pose_loop pkt drv (offset + 1)).sensor_fusion =
        (vl_driver._update_pose_loop pkt drv offset).sensor_fusion ++ [c] ∧
      vl_driver.ticks_in_force pkt drv (offset + 1) = c.sample.time_ticks := by
  intro c hc
  rw [new_calls_eq, List.mem_map] at hc
  obtain ⟨offset, hmem, rfl⟩ := hc
  rw [List.mem_filter, List.mem_range] at hmem
  obtain ⟨hlt, hf⟩ := hmem
  have hpkt' : ∀ i, (pkt.samples i).time_ticks < 4294967296 := fun i => by
    have := hpkt i
    omega
  have hb : vl_driver.ticks_in_force pkt drv offset < 4294967296 :=
    update_pose_loop_ticks_lt pkt drv hpkt' (by omega) offset
  have hpow : (2 : Nat) ^ 32 = 4294967296 := by norm_num
  have ht := hpkt' (vl_driver.index_at pkt offset)
  have hf' := hf
  simp only [vl_driver.fused_at, vl_driver.tick_at, Bool.and_eq_true, bne_iff_ne, ne_eq]
    at hf'
  obtain ⟨h0, hv⟩ := hf'
  have hiff := (is_timestamp_valid_iff _ _ ht hb).mp hv
  have hint := sub_u32_int _ _ ht hb
  have hd : (vl_driver.call_at pkt drv offset).dticks =
      sub_u32 (pkt.samples (vl_driver.index_at pkt offset)).time_ticks
        (vl_driver.ticks_in_force pkt drv offset) := rfl
  have hs : (vl_driver.call_at pkt drv offset).sample =
      pkt.samples (vl_driver.index_at pkt offset) := rfl
  have hforce : vl_driver.ticks_in_force pkt drv offset =
      (vl_driver._update_pose_loop pkt drv offset).previous_ticks := rfl
  refine ⟨offset, hlt, rfl, hs, h0, ?_, ?_, ?_, ?_, ?_, ?_, ?_⟩
  · rw [hs]
    exact hv
  · rw [hs, hd]
    simpa using hint
  · rw [hd]
    unfold sub_u32
    omega
  · rw [hd, hs]
    intro _
    unfold sub_u32
    omega
  · rw [hd, hs, hpow]
    intro _
    unfold sub_u32
    omega
  · rw [update_pose_loop_succ, process_sample_fusion]
    rw [hforce] at h0 hv
    simp [h0, hv, vl_driver.call_at, vl_driver.tick_at, vl_driver.ticks_in_force]
  · rw [hs]
    show (vl_driver._update_pose_loop pkt drv (offset + 1)).previous_ticks = _
    rw [update_pose_loop_succ, process_sample_ticks]
    rw [hforce] at h0 hv
    simp [h0, hv]

/-- Witness for C6: baseline 4294967290 and ticks 4294967294, 10, 20; the call for the
sample at tick 10 is made across the counter wrap with delta 12. -/
theorem C6_fusion_call_delta_witness :
    (∀ i, ((imu_report 7 8 9 4294967294 10 20).samples i).time_ticks < 2 ^ 32) ∧
    (driver_at 4294967290).previous_ticks < 2 ^ 32 ∧
    ({ dticks := 12, sample := imu_sample 8 10 } : fusion_update) ∈
      vl_driver.new_calls (imu_report 7 8 9 4294967294 10 20) (driver_at 4294967290) ∧
    ∃ offset, offset < 3 ∧
      ({ dticks := 12, sample := imu_sample 8 10 } : fusion_update) =
        vl_driver.call_at (imu_report 7 8 9 4294967294 10 20) (driver_at 4294967290) offset :=
  ⟨by decide, by decide, by decide,
   let ⟨offset, hlt, hcall, _⟩ :=
     C6_fusion_call_delta (imu_report 7 8 9 4294967294 10 20) (driver_at 4294967290)
       (by decide) (by decide) { dticks := 12, sample := imu_sample 8 10 } (by decide)
   ⟨offset, hlt, hcall⟩⟩

/-! ### The sentinel value 0 of `previous_ticks` -/

/-- Processing a list of samples from a state with a baseline, when no sample tick is 0:
the ticks of the calls made form a chain for `tick_follows` starting at the baseline,
and a baseline still exists afterwards. -/
theorem foldl_process_sample_chain (pkt : vive_headset_imu_report)
    (hpkt : ∀ i, (pkt.samples i).time_ticks < 4294967296)
    (hnz : ∀ i, (pkt.samples i).time_ticks ≠ 0) :
    ∀ (l : List (Fin 3)) (d : vl_driver), d.previous_ticks ≠ 0 →
      d.previous_ticks < 4294967296 →
      ∃ calls, (l.foldl (vl_driver.process_sample pkt) d).sensor_fusion =
          d.sensor_fusion ++ calls ∧
        List.Chain tick_follows d.previous_ticks (calls.map (fun c => c.sample.time_ticks)) ∧
        (l.foldl (vl_driver.process_sample pkt) d).previous_ticks ≠ 0 := by
  intro l
  induction l with
  | nil =>
    intro d h0 _
    exact ⟨[], by simp, by simp, by simpa using h0⟩
  | cons i l ih =>
    intro d h0 hlt
    by_cases hv : is_timestamp_valid (pkt.samples i).time_ticks d.previous_ticks = true
    · have hstep : vl_driver.process_sample pkt d i =
          { previous_ticks := (pkt.samples i).time_ticks
            sensor_fusion := d.sensor_fusion ++
              [{ dticks := sub_u32 (pkt.samples i).time_ticks d.previous_ticks
                 sample := pkt.samples i }] } := by
        unfold vl_driver.process_sample
        simp [h0, hv]
      obtain ⟨calls, hc, hchain, hfin⟩ := ih (vl_driver.process_sample pkt d i)
        (by rw [hstep]; exact hnz i) (by rw [hstep]; exact hpkt i)
      rw [hstep] at hc hchain hfin
      refine ⟨{ dticks := sub_u32 (pkt.samples i).time_ticks d.previous_ticks
                sample := pkt.samples i } :: calls, ?_, ?_, ?_⟩
      · rw [List.foldl_cons, hstep, hc]
        simp
      · rw [List.map_cons]
        refine List.Chain.cons ?_ hchain
        have := ((is_timestamp_valid_iff _ _ (hpkt i) hlt).mp hv).2
        show tick_follows d.previous_ticks (pkt.samples i).time_ticks
        unfold tick_follows
        omega
      · rw [List.foldl_cons, hstep]
        exact hfin
    · have hstep : vl_driver.process_sample pkt d i = d :=
        process_sample_rejected pkt d i h0 (by simpa using hv)
      obtain ⟨calls, hc, hchain, hfin⟩ := ih d h0 hlt
      exact ⟨calls, by rw [List.foldl_cons, hstep, hc],
        hchain, by rw [List.foldl_cons, hstep]; exact hfin⟩

/-- When no sample of the packet has tick 0, a baseline that exists before
`_update_pose` still exists after it. -/
theorem update_pose_keeps_baseline (pkt : vive_headset_imu_report) (drv : vl_driver)
    (hpkt : ∀ i, (pkt.samples i).time_ticks < 4294967296)
    (hnz : ∀ i, (pkt.samples i).time_ticks ≠ 0)
    (h0 : drv.previous_ticks ≠ 0) (hlt : drv.previous_ticks < 4294967296) :
    (vl_driver._update_pose pkt drv).previous_ticks ≠ 0 := by
  rw [update_pose_eq_foldl]
  obtain ⟨_, _, _, hfin⟩ := foldl_process_sample_chain pkt hpkt hnz
    [vl_driver.index_at pkt 0, vl_driver.index_at pkt 1, vl_driver.index_at pkt 2] drv h0 hlt
  exact hfin

/-- C7 (evaluation at the failing input): with baseline 4294967290, the report with ticks
4294967292, 4294967294, 0 has all three samples accepted, the last one across the counter
wrap, and leaves `previous_ticks = 0`; the first sample of the next report (tick 2, valid
against tick 0) is then taken as a new baseline and skipped without a fusion update. -/
theorem C7_zero_tick_clears_baseline :
    (driver_at 4294967290).previous_ticks ≠ 0 ∧
    is_timestamp_valid 0 4294967294 = true ∧
    vl_driver._update_pose (imu_report 7 8 9 4294967292 4294967294 0) (driver_at 4294967290) =
      { previous_ticks := 0
        sensor_fusion := [{ dticks := 2, sample := imu_sample 7 4294967292 },
                          { dticks := 2, sample := imu_sample 8 4294967294 },
                          { dticks := 2, sample := imu_sample 9 0 }] } ∧
    (vl_driver._update_pose (imu_report 7 8 9 4294967292 4294967294 0)
      (driver_at 4294967290)).previous_ticks = 0 ∧
    is_timestamp_valid 2 0 = true ∧
    vl_driver.fused_at (imu_report 10 11 12 2 4 6)
      (vl_driver._update_pose (imu_report 7 8 9 4294967292 4294967294 0)
        (driver_at 4294967290)) 0 = false ∧
    vl_driver.fused_ticks (imu_report 10 11 12 2 4 6)
      (vl_driver._update_pose (imu_report 7 8 9 4294967292 4294967294 0)
        (driver_at 4294967290)) = [4, 6] ∧
    (vl_driver.update_stream (driver_at 4294967290)
      [imu_report 7 8 9 4294967292 4294967294 0, imu_report 10 11 12 2 4 6]).sensor_fusion.map
        (fun c => c.sample.time_ticks) = [4294967292, 4294967294, 0, 4, 6] := by
  refine ⟨by decide, by decide, by decide, by decide, by decide, by decide, by decide,
    by decide⟩

/-- The baseline property when the first visited tick is not 0: on a state without a
baseline the first visited sample is not fused and becomes the baseline, and the second
visited sample is fused exactly when it passes the validity check against it. -/
theorem baseline_then_fused (pkt : vive_headset_imu_report) (drv : vl_driver)
    (h0 : drv.previous_ticks = 0) (hnz : vl_driver.tick_at pkt 0 ≠ 0) :
    vl_driver.fused_at pkt drv 0 = false ∧
    vl_driver.ticks_in_force pkt drv 1 = vl_driver.tick_at pkt 0 ∧
    (vl_driver._update_pose_loop pkt drv 1).sensor_fusion = drv.sensor_fusion ∧
    vl_driver.fused_at pkt drv 1 =
      is_timestamp_valid (vl_driver.tick_at pkt 1) (vl_driver.tick_at pkt 0) := by
  have h1 : vl_driver._update_pose_loop pkt drv 1 =
      { drv with previous_ticks := vl_driver.tick_at pkt 0 } := by
    rw [update_pose_loop_succ, update_pose_loop_zero]
    unfold vl_driver.process_sample
    simp [h0, vl_driver.tick_at]
  refine ⟨?_, ?_, ?_, ?_⟩
  · simp [vl_driver.fused_at, vl_driver.ticks_in_force, update_pose_loop_zero, h0]
  · simp [vl_driver.ticks_in_force, h1]
  · simp [h1]
  · simp [vl_driver.fused_at, vl_driver.ticks_in_force, h1, hnz]

/-- On a state without a baseline and a packet without a zero tick, the baseline is
assigned exactly once, at the first visited sample, and at most two calls are made. -/
theorem baseline_once_of_nonzero_ticks (pkt : vive_headset_imu_report) (drv : vl_driver)
    (h0 : drv.previous_ticks = 0) (hnz : ∀ i, (pkt.samples i).time_ticks ≠ 0) :
    vl_driver.ticks_in_force pkt drv 0 = 0 ∧
    vl_driver.ticks_in_force pkt drv 1 ≠ 0 ∧
    vl_driver.ticks_in_force pkt drv 2 ≠ 0 ∧
    (vl_driver.new_calls pkt drv).length ≤ 2 := by
  have hstep : ∀ (d : vl_driver) (i : Fin 3),
      (vl_driver.process_sample pkt d i).previous_ticks ≠ 0 := by
    intro d i
    rw [process_sample_ticks]
    split_ifs with ha hb
    · exact hnz i
    · exact hnz i
    · exact ha
  have hf0 : vl_driver.fused_at pkt drv 0 = false := by
    simp [vl_driver.fused_at, vl_driver.ticks_in_force, update_pose_loop_zero, h0]
  refine ⟨by simp [vl_driver.ticks_in_force, update_pose_loop_zero, h0], ?_, ?_, ?_⟩
  · unfold vl_driver.ticks_in_force
    rw [update_pose_loop_succ]
    exact hstep _ _
  · unfold vl_driver.ticks_in_force
    rw [update_pose_loop_succ]
    exact hstep _ _
  · rw [new_calls_eq, List.length_map]
    have hr : List.range 3 = 0 :: [1, 2] := by decide
    rw [hr, List.filter_cons_of_neg (by simp [hf0])]
    exact (List.length_filter_le _ _).trans (by simp)

/-- C5 (evaluation at the failing input): on a fresh session the report with ticks
0, 100, 200 has its first sample (tick 0) taken as the baseline, which leaves
`previous_ticks = 0`; the second sample (tick 100) passes the validity check against
that baseline, yet it is not fused but taken as a second baseline; only the third sample
is fused. The scenario of the spec (`seq = [12,10,8]`, ticks `[1000,1100,1050]`) gives
one baseline (1100) and no fusion call. -/
theorem C5_zero_tick_baseline_repeats :
    vl_driver.fresh.previous_ticks = 0 ∧
    vl_driver.tick_at (imu_report 7 8 9 0 100 200) 0 = 0 ∧
    vl_driver.ticks_in_force (imu_report 7 8 9 0 100 200) vl_driver.fresh 1 = 0 ∧
    is_timestamp_valid (vl_driver.tick_at (imu_report 7 8 9 0 100 200) 1)
      (vl_driver.ticks_in_force (imu_report 7 8 9 0 100 200) vl_driver.fresh 1) = true ∧
    vl_driver.fused_at (imu_report 7 8 9 0 100 200) vl_driver.fresh 1 = false ∧
    vl_driver.ticks_in_force (imu_report 7 8 9 0 100 200) vl_driver.fresh 2 = 100 ∧
    vl_driver._update_pose (imu_report 7 8 9 0 100 200) vl_driver.fresh =
      { previous_ticks := 200
        sensor_fusion := [{ dticks := 100, sample := imu_sample 9 200 }] } ∧
    vl_driver._update_pose (imu_report 12 10 8 1000 1100 1050) vl_driver.fresh =
      { previous_ticks := 1100, sensor_fusion := [] } := by
  refine ⟨by decide, by decide, by decide, by decide, by decide, by decide, by decide,
    by decide⟩

/-! ### Order of the fused ticks -/

/-- C8 (counterexample): baseline 4294967000 and the report with `seq = [12, 10, 8]`
(decreasing by 2, so `li = 1`) and ticks `[200, 4294967200, 100]`: the samples are fused
at ticks 4294967200, 100, 200. The second is accepted as a counter wraparound, so the
fused ticks are not strictly increasing as 32-bit unsigned integers, and 100 and 200 are
below the `previous_ticks` in force before the packet. -/
theorem C8_wraparound_breaks_increasing :
    (((imu_report 12 10 8 200 4294967200 100).samples 0).seq =
      (((imu_report 12 10 8 200 4294967200 100).samples 1).seq + 2) % 256) ∧
    vl_driver.fused_ticks (imu_report 12 10 8 200 4294967200 100) (driver_at 4294967000) =
      [4294967200, 100, 200] ∧
    ¬ (List.Pairwise (fun a b => a < b)
        (vl_driver.fused_ticks (imu_report 12 10 8 200 4294967200 100)
          (driver_at 4294967000)) ∧
       ∀ t ∈ vl_driver.fused_ticks (imu_report 12 10 8 200 4294967200 100)
          (driver_at 4294967000), (driver_at 4294967000).previous_ticks < t) := by
  refine ⟨by decide, by decide, ?_⟩
  have h : vl_driver.fused_ticks (imu_report 12 10 8 200 4294967200 100)
      (driver_at 4294967000) = [4294967200, 100, 200] := by decide
  rw [h]
  intro hc
  have := hc.2 100 (by simp)
  revert this
  decide

/-- C8 (amended): when no sample of the packet has tick 0, the ticks of the samples that
`_update_pose` feeds to fusion form, in call order, a chain in which every tick follows
its predecessor on the wrapping counter, starting from the `previous_ticks` in force
before the packet (from the baseline taken from the first visited sample when that was
0): each fused tick is either greater than its predecessor by fewer than `2^30 - 1`
ticks, or, accepted as a wraparound, below it by more than `2^30 - 1` ticks. A fused
tick is never below its predecessor by `2^30 - 1` ticks or fewer. This holds for every
packet, with or without the decreasing-by-2 pattern. -/
theorem C8_fused_ticks_follow (pkt : vive_headset_imu_report) (drv : vl_driver)
    (hpkt : ∀ i, (pkt.samples i).time_ticks < 2 ^ 32)
    (hprev : drv.previous_ticks < 2 ^ 32)
    (hnz : ∀ i, (pkt.samples i).time_ticks ≠ 0) :
    List.Chain tick_follows
      (if drv.previous_ticks = 0 then vl_driver.tick_at pkt 0 else drv.previous_ticks)
      (vl_driver.fused_ticks pkt drv) ∧
    List.Chain (fun a b => a < b ∨ 1073741823 < a - b)
      (if drv.previous_ticks = 0 then vl_driver.tick_at pkt 0 else drv.previous_ticks)
      (vl_driver.fused_ticks pkt drv) := by
  have hpkt' : ∀ i, (pkt.samples i).time_ticks < 4294967296 := fun i => by
    have := hpkt i
    omega
  have hprev' : drv.previous_ticks < 4294967296 := by omega
  have key : List.Chain tick_follows
      (if drv.previous_ticks = 0 then vl_driver.tick_at pkt 0 else drv.previous_ticks)
      (vl_driver.fused_ticks pkt drv) := by
    by_cases h0 : drv.previous_ticks = 0
    · have hstep : vl_driver.process_sample pkt drv (vl_driver.index_at pkt 0) =
          { drv with previous_ticks := vl_driver.tick_at pkt 0 } := by
        unfold vl_driver.process_sample
        simp [h0, vl_driver.tick_at]
      obtain ⟨calls, hc, hchain, _⟩ := foldl_process_sample_chain pkt hpkt' hnz
        [vl_driver.index_at pkt 1, vl_driver.index_at pkt 2]
        (vl_driver.process_sample pkt drv (vl_driver.index_at pkt 0))
        (by rw [hstep]; exact hnz _) (by rw [hstep]; exact hpkt' _)
      rw [hstep] at hc hchain
      have hnew : vl_driver.new_calls pkt drv = calls := by
        unfold vl_driver.new_calls
        rw [update_pose_eq_foldl, List.foldl_cons, hstep, hc]
        simp
      simpa [h0, vl_driver.fused_ticks, hnew] using hchain
    · obtain ⟨calls, hc, hchain, _⟩ := foldl_process_sample_chain pkt hpkt' hnz
        [vl_driver.index_at pkt 0, vl_driver.index_at pkt 1, vl_driver.index_at pkt 2]
        drv h0 hprev'
      have hnew : vl_driver.new_calls pkt drv = calls := by
        unfold vl_driver.new_calls
        rw [update_pose_eq_foldl, hc]
        simp
      simpa [h0, vl_driver.fused_ticks, hnew] using hchain
  refine ⟨key, key.imp ?_⟩
  intro a b hab
  unfold tick_follows at hab
  omega

/-- Witness for C8 (amended): the packet of the counterexample, whose fused ticks
4294967200, 100, 200 follow one another across the counter wrap. -/
theorem C8_fused_ticks_follow_witness :
    (∀ i, ((imu_report 12 10 8 200 4294967200 100).samples i).time_ticks < 2 ^ 32) ∧
    (driver_at 4294967000).previous_ticks < 2 ^ 32 ∧
    (∀ i, ((imu_report 12 10 8 200 4294967200 100).samples i).time_ticks ≠ 0) ∧
    List.Chain tick_follows
      (if (driver_at 4294967000).previous_ticks = 0
        then vl_driver.tick_at (imu_report 12 10 8 200 4294967200 100) 0
        else (driver_at 4294967000).previous_ticks)
      (vl_driver.fused_ticks (imu_report 12 10 8 200 4294967200 100) (driver_at 4294967000)) :=
  ⟨by decide, by decide, by decide,
   (C8_fused_ticks_follow (imu_report 12 10 8 200 4294967200 100) (driver_at 4294967000)
     (by decide) (by decide) (by decide)).1⟩

/-! ### Light-sample batching -/

/-- Pushing the elements `pkt i` one by one appends them in order. -/
theorem foldl_push_eq {ι α : Type} (pkt : ι → α) (l : List ι) (raw : List α) :
    l.foldl (fun raw i => raw ++ [pkt i]) raw = raw ++ l.map pkt := by
  induction l generalizing raw with
  | nil => simp
  | cons i l ih => simp [List.foldl_cons, ih]

/-- The callback appends the nine samples of an HMD light report and ignores any other. -/
theorem read_hmd_light_eq (proto : light_protocol) (raw : List lighthouse_pulse)
    (r : hid_report) :
    read_hmd_light proto raw r =
      raw ++ (if r.tag = proto.VL_MSG_HMD_LIGHT then samples_of proto r else []) := by
  unfold read_hmd_light samples_of
  by_cases h : r.tag = proto.VL_MSG_HMD_LIGHT
  · simp [h, foldl_push_eq]
  · simp [h]

/-- One poll appends the samples of the light reports it delivered. -/
theorem hid_query_read_eq (proto : light_protocol) (raw : List lighthouse_pulse)
    (polled : Option hid_report) :
    hid_query polled (read_hmd_light proto) raw =
      raw ++ (light_reports proto [polled]).flatMap (samples_of proto) := by
  cases polled with
  | none => simp [hid_query, light_reports]
  | some r =>
    by_cases h : r.tag = proto.VL_MSG_HMD_LIGHT
    · simp [hid_query, light_reports, read_hmd_light_eq, h]
    · simp [hid_query, light_reports, read_hmd_light_eq, h]

theorem light_reports_cons (proto : light_protocol) (polled : Option hid_report)
    (rest : List (Option hid_report)) :
    light_reports proto (polled :: rest) =
      light_reports proto [polled] ++ light_reports proto rest := by
  cases polled with
  | none => simp [light_reports]
  | some r =>
    by_cases h : r.tag = proto.VL_MSG_HMD_LIGHT
    · simp [light_reports, List.filter_cons, h]
    · simp [light_reports, List.filter_cons, h]

/-- Every light report contributes exactly nine samples. -/
theorem samples_of_length (proto : light_protocol) (r : hid_report) :
    (samples_of proto r).length = 9 := by
  simp [samples_of]

/-- The batch at loop exit: the batch at loop entry followed by the samples of the light
reports polled in between, in arrival order. -/
theorem poll_loop_contents (proto : light_protocol) (n : Nat) :
    ∀ (device : List (Option hid_report)) (raw batch : List lighthouse_pulse)
      (rest : List (Option hid_report)),
      poll_loop proto n raw device = some (batch, rest) →
      ∃ polled, device = polled ++ rest ∧
        batch = raw ++ (light_reports proto polled).flatMap (samples_of proto) := by
  intro device
  induction device with
  | nil =>
    intro raw batch rest h
    unfold poll_loop at h
    split_ifs at h
    simp only [Option.some.injEq, Prod.mk.injEq] at h
    exact ⟨[], by simp [h.2.symm], by simp [h.1.symm, light_reports]⟩
  | cons p ps ih =>
    intro raw batch rest h
    unfold poll_loop at h
    split_ifs at h
    · obtain ⟨polled, hdev, hb⟩ := ih _ _ _ h
      refine ⟨p :: polled, by simp [hdev], ?_⟩
      rw [hb, hid_query_read_eq, light_reports_cons proto p polled, List.flatMap_append,
        List.append_assoc]
    · simp only [Option.some.injEq, Prod.mk.injEq] at h
      exact ⟨[], by simp [h.2.symm], by simp [h.1.symm, light_reports]⟩

/-- Length of the batch after one poll: unchanged or nine more. -/
theorem hid_query_read_length (proto : light_protocol) (raw : List lighthouse_pulse)
    (polled : Option hid_report) :
    (hid_query polled (read_hmd_light proto) raw).length = raw.length ∨
    (hid_query polled (read_hmd_light proto) raw).length = raw.length + 9 := by
  cases polled with
  | none => simp [hid_query]
  | some r =>
    by_cases h : r.tag = proto.VL_MSG_HMD_LIGHT
    · right
      simp [hid_query, read_hmd_light_eq, h, samples_of_length]
    · left
      simp [hid_query, read_hmd_light_eq, h]

/-- Length of the batch at loop exit, for a loop entered with a whole number of reports
not beyond the least multiple of 9 that reaches the target. -/
theorem poll_loop_length (proto : light_protocol) (n : Nat) :
    ∀ (device : List (Option hid_report)) (raw batch : List lighthouse_pulse)
      (rest : List (Option hid_report)),
      raw.length % 9 = 0 → raw.length ≤ 9 * ((n + 8) / 9) →
      poll_loop proto n raw device = some (batch, rest) →
      batch.length = 9 * ((n + 8) / 9) := by
  intro device
  induction device with
  | nil =>
    intro raw batch rest hmod hle h
    unfold poll_loop at h
    split_ifs at h with hlt
    simp only [Option.some.injEq, Prod.mk.injEq] at h
    rw [← h.1]
    omega
  | cons p ps ih =>
    intro raw batch rest hmod hle h
    unfold poll_loop at h
    split_ifs at h with hlt
    · rcases hid_query_read_length proto raw p with hq | hq
      · exact ih _ _ _ (by rw [hq]; exact hmod) (by rw [hq]; exact hle) h
      · exact ih _ _ _ (by rw [hq]; omega) (by rw [hq]; omega) h
    · simp only [Option.some.injEq, Prod.mk.injEq] at h
      rw [← h.1]
      omega

/-- The loop exits once the handle has delivered enough HMD light reports. -/
theorem poll_loop_exits (proto : light_protocol) (n : Nat) :
    ∀ (device : List (Option hid_report)) (raw : List lighthouse_pulse),
      n ≤ raw.length + 9 * (light_reports proto device).length →
      ∃ batch rest, poll_loop proto n raw device = some (batch, rest) := by
  intro device
  induction device with
  | nil =>
    intro raw h
    have : ¬ raw.length < n := by
      simp [light_reports] at h
      omega
    exact ⟨raw, [], by simp [poll_loop, this]⟩
  | cons p ps ih =>
    intro raw h
    by_cases hlt : raw.length < n
    · have hstep : poll_loop proto n raw (p :: ps) =
          poll_loop proto n (hid_query p (read_hmd_light proto) raw) ps := by
        rw [poll_loop]
        simp [hlt]
      rw [hstep]
      apply ih
      rw [hid_query_read_eq, List.length_append]
      rw [light_reports_cons, List.length_append] at h
      have hlen : ((light_reports proto [p]).flatMap (samples_of proto)).length =
          9 * (light_reports proto [p]).length := by
        cases p with
        | none => simp [light_reports]
        | some r =>
          by_cases ht : r.tag = proto.VL_MSG_HMD_LIGHT
          · simp [light_reports, ht, samples_of_length]
          · simp [light_reports, ht]
      omega
    · exact ⟨raw, p :: ps, by simp [poll_loop, hlt]⟩

/-- What `poll_angles` hands downstream is the batch at loop exit. -/
theorem poll_angles_some {β : Type} (proto : light_protocol)
    (f : Char → List lighthouse_pulse → β) (channel : Char) (n : Nat)
    (device : List (Option hid_report)) (res : β) (rest : List (Option hid_report))
    (h : vl_driver.poll_angles proto f channel n device = some (res, rest)) :
    ∃ batch, poll_loop proto n [] device = some (batch, rest) ∧ res = f channel batch := by
  unfold vl_driver.poll_angles at h
  cases hp : poll_loop proto n [] device with
  | none => simp [hp] at h
  | some pr =>
    obtain ⟨batch, rest'⟩ := pr
    simp only [hp, Option.some.injEq, Prod.mk.injEq] at h
    exact ⟨batch, by rw [h.2], h.1.symm⟩

/-- What `poll_pnp` hands downstream is the batch at loop exit. -/
theorem poll_pnp_some {β γ : Type} (proto : light_protocol)
    (f : Char → List lighthouse_pulse → γ → β) (cfg : γ) (channel : Char) (n : Nat)
    (device : List (Option hid_report)) (res : β) (rest : List (Option hid_report))
    (h : vl_driver.poll_pnp proto f cfg channel n device = some (res, rest)) :
    ∃ batch, poll_loop proto n [] device = some (batch, rest) ∧ res = f channel batch cfg := by
  unfold vl_driver.poll_pnp at h
  cases hp : poll_loop proto n [] device with
  | none => simp [hp] at h
  | some pr =>
    obtain ⟨batch, rest'⟩ := pr
    simp only [hp, Option.some.injEq, Prod.mk.injEq] at h
    exact ⟨batch, by rw [h.2], h.1.symm⟩

/-- When the loop exits, `poll_angles` hands the batch at loop exit to the angle
extraction and returns its result. -/
theorem poll_angles_of_loop {β : Type} (proto : light_protocol)
    (f : Char → List lighthouse_pulse → β) (channel : Char) (n : Nat)
    (device : List (Option hid_report)) (batch : List lighthouse_pulse)
    (rest : List (Option hid_report))
    (h : poll_loop proto n [] device = some (batch, rest)) :
    vl_driver.poll_angles proto f channel n device = some (f channel batch, rest) := by
  unfold vl_driver.poll_angles
  simp only [h]

/-- When the loop exits, `poll_pnp` hands the batch at loop exit and the calibration map
to the pose solve and returns its result. -/
theorem poll_pnp_of_loop {β γ : Type} (proto : light_protocol)
    (f : Char → List lighthouse_pulse → γ → β) (cfg : γ) (channel : Char) (n : Nat)
    (device : List (Option hid_report)) (batch : List lighthouse_pulse)
    (rest : List (Option hid_report))
    (h : poll_loop proto n [] device = some (batch, rest)) :
    vl_driver.poll_pnp proto f cfg channel n device = some (f channel batch cfg, rest) := by
  unfold vl_driver.poll_pnp
  simp only [h]

/-- Length facts for a batch accumulated from the empty batch. -/
theorem poll_loop_length_bounds (proto : light_protocol) (n : Nat)
    (device : List (Option hid_report)) (batch : List lighthouse_pulse)
    (rest : List (Option hid_report))
    (h : poll_loop proto n [] device = some (batch, rest)) :
    n ≤ batch.length ∧ batch.length ≤ n + 8 ∧ 9 ∣ batch.length ∧
      (∀ m, 9 ∣ m → n ≤ m → batch.length ≤ m) := by
  have hlen := poll_loop_length proto n device [] batch rest (by simp) (by simp) h
  refine ⟨by omega, by omega, ⟨(n + 8) / 9, hlen⟩, ?_⟩
  rintro m ⟨k, rfl⟩ hm
  omega

/-- C9: in `poll_angles` and `poll_pnp`, whenever the accumulation loop exits, the batch
at loop exit is handed to the downstream capability, whose result is returned, and it
has a length `L` with `n ≤ L ≤ n + 8` and `L` a multiple of 9, the least multiple of 9
that is at least `n`; for `n = 0` the batch is empty and nothing is polled; the
downstream capability is never given a batch shorter than `n`, and is not invoked at
all while the loop has not exited. The loop does exit once the handle has delivered
enough HMD light reports. -/
theorem C9_batch_length (proto : light_protocol) (n : Nat)
    (device : List (Option hid_report)) :
    (∀ batch rest, poll_loop proto n [] device = some (batch, rest) →
      n ≤ batch.length ∧ batch.length ≤ n + 8 ∧ 9 ∣ batch.length ∧
      (∀ m, 9 ∣ m → n ≤ m → batch.length ≤ m) ∧
      (n = 0 → batch = [] ∧ rest = device)) ∧
    (∀ (f : Char → List lighthouse_pulse → List Nat) channel res rest,
      vl_driver.poll_angles proto f channel n device = some (res, rest) →
      ∃ batch, res = f channel batch ∧
        n ≤ batch.length ∧ batch.length ≤ n + 8 ∧ 9 ∣ batch.length ∧
        (∀ m, 9 ∣ m → n ≤ m → batch.length ≤ m)) ∧
    (∀ (f : Char → List lighthouse_pulse → List Nat → List Nat) cfg channel res rest,
      vl_driver.poll_pnp proto f cfg channel n device = some (res, rest) →
      ∃ batch, res = f channel batch cfg ∧
        n ≤ batch.length ∧ batch.length ≤ n + 8 ∧ 9 ∣ batch.length ∧
        (∀ m, 9 ∣ m → n ≤ m → batch.length ≤ m)) ∧
    (n ≤ 9 * (light_reports proto device).length →
      ∃ batch rest, poll_loop proto n [] device = some (batch, rest)) ∧
    (∀ (f : Char → List lighthouse_pulse → List Nat) channel batch rest,
      poll_loop proto n [] device = some (batch, rest) →
      vl_driver.poll_angles proto f channel n device = some (f channel batch, rest)) ∧
    (∀ (f : Char → List lighthouse_pulse → List Nat → List Nat) cfg channel batch rest,
      poll_loop proto n [] device = some (batch, rest) →
      vl_driver.poll_pnp proto f cfg channel n device = some (f channel batch cfg, rest)) ∧
    (poll_loop proto n [] device = none →
      (∀ (f : Char → List lighthouse_pulse → List Nat) channel,
        vl_driver.poll_angles proto f channel n device = none) ∧
      (∀ (f : Char → List lighthouse_pulse → List Nat → List Nat) cfg channel,
        vl_driver.poll_pnp proto f cfg channel n device = none)) := by
  refine ⟨?_, ?_, ?_, ?_,
    fun f channel batch rest h => poll_angles_of_loop proto f channel n device batch rest h,
    fun f cfg channel batch rest h => poll_pnp_of_loop proto f cfg channel n device batch rest h,
    ?_⟩
  rotate_right
  · intro h
    constructor
    · intro f channel
      unfold vl_driver.poll_angles
      simp only [h]
    · intro f cfg channel
      unfold vl_driver.poll_pnp
      simp only [h]
  · intro batch rest h
    obtain ⟨h1, h2, h3, h4⟩ := poll_loop_length_bounds proto n device batch rest h
    refine ⟨h1, h2, h3, h4, ?_⟩
    intro hn
    subst hn
    cases device with
    | nil =>
      simp only [poll_loop, Nat.not_lt_zero, if_false, Option.some.injEq, Prod.mk.injEq] at h
      exact ⟨h.1.symm, h.2.symm⟩
    | cons p ps =>
      simp only [poll_loop, Nat.not_lt_zero, if_false, Option.some.injEq, Prod.mk.injEq] at h
      exact ⟨h.1.symm, h.2.symm⟩
  · intro f channel res rest h
    obtain ⟨batch, hb, hres⟩ := poll_angles_some proto f channel n device res rest h
    exact ⟨batch, hres, poll_loop_length_bounds proto n device batch rest hb⟩
  · intro f cfg channel res rest h
    obtain ⟨batch, hb, hres⟩ := poll_pnp_some proto f cfg channel n device res rest h
    exact ⟨batch, hres, poll_loop_length_bounds proto n device batch rest hb⟩
  · intro h
    exact poll_loop_exits proto n device [] (by simpa using h)

/-- Witness for C9: target 10 against the outcomes "nothing, light report, IMU report,
nothing, light report, light report": the loop exits after the second light report with
18 samples, the third light report is not polled, and `poll_angles` and `poll_pnp`
return what the downstream capability makes of these 18 samples. -/
theorem C9_batch_length_witness :
    poll_loop demo_protocol 10 [] demo_device =
      some (samples_of demo_protocol ⟨37, [100]⟩ ++ samples_of demo_protocol ⟨37, [200]⟩,
        [some ⟨37, [300]⟩]) ∧
    10 ≤ (samples_of demo_protocol ⟨37, [100]⟩ ++ samples_of demo_protocol ⟨37, [200]⟩).length ∧
    (samples_of demo_protocol ⟨37, [100]⟩ ++ samples_of demo_protocol ⟨37, [200]⟩).length
      ≤ 10 + 8 ∧
    vl_driver.poll_angles demo_protocol (fun _ batch => batch.map (fun s => s.timestamp))
        'A' 10 demo_device =
      some ((samples_of demo_protocol ⟨37, [100]⟩ ++
              samples_of demo_protocol ⟨37, [200]⟩).map (fun s => s.timestamp),
        [some ⟨37, [300]⟩]) ∧
    vl_driver.poll_pnp demo_protocol
        (fun _ batch cfg => cfg ++ batch.map (fun s => s.timestamp)) [7] 'A' 10 demo_device =
      some ([7] ++ (samples_of demo_protocol ⟨37, [100]⟩ ++
              samples_of demo_protocol ⟨37, [200]⟩).map (fun s => s.timestamp),
        [some ⟨37, [300]⟩]) ∧
    (vl_driver.poll_angles demo_protocol (fun _ batch => batch.map (fun s => s.timestamp))
        'A' 10 demo_device).isSome = true :=
  ⟨by decide,
   ((C9_batch_length demo_protocol 10 demo_device).1
      (samples_of demo_protocol ⟨37, [100]⟩ ++ samples_of demo_protocol ⟨37, [200]⟩)
      [some ⟨37, [300]⟩] (by decide)).1,
   ((C9_batch_length demo_protocol 10 demo_device).1
      (samples_of demo_protocol ⟨37, [100]⟩ ++ samples_of demo_protocol ⟨37, [200]⟩)
      [some ⟨37, [300]⟩] (by decide)).2.1,
   (C9_batch_length demo_protocol 10 demo_device).2.2.2.2.1
      (fun _ batch => batch.map (fun s => s.timestamp)) 'A'
      (samples_of demo_protocol ⟨37, [100]⟩ ++ samples_of demo_protocol ⟨37, [200]⟩)
      [some ⟨37, [300]⟩] (by decide),
   (C9_batch_length demo_protocol 10 demo_device).2.2.2.2.2.1
      (fun _ batch cfg => cfg ++ batch.map (fun s => s.timestamp)) [7] 'A'
      (samples_of demo_protocol ⟨37, [100]⟩ ++ samples_of demo_protocol ⟨37, [200]⟩)
      [some ⟨37, [300]⟩] (by decide),
   by decide⟩

/-- C10: each call of `poll_angles` and of `poll_pnp` starts from an empty batch, and the
batch handed downstream is exactly the concatenation, in arrival order, of the nine
samples (indices 0 to 8 in order) of each report polled during that call whose tag byte
is `VL_MSG_HMD_LIGHT`; a report with any other tag, and a poll that delivers nothing,
leave the batch unchanged; of two calls in a row the second gets only the samples of
the reports polled during the second call. -/
theorem C10_batch_contents (proto : light_protocol) (device : List (Option hid_report)) :
    (∀ raw r, r.tag = proto.VL_MSG_HMD_LIGHT →
      read_hmd_light proto raw r = raw ++ (List.finRange 9).map (proto.vl_msg_decode_hmd_light r)) ∧
    (List.finRange 9).map Fin.val = [0, 1, 2, 3, 4, 5, 6, 7, 8] ∧
    (∀ raw r, r.tag ≠ proto.VL_MSG_HMD_LIGHT → read_hmd_light proto raw r = raw) ∧
    (∀ raw : List lighthouse_pulse, hid_query none (read_hmd_light proto) raw = raw) ∧
    (∀ n (f : Char → List lighthouse_pulse → List Nat) channel res rest,
      vl_driver.poll_angles proto f channel n device = some (res, rest) →
      ∃ polled, device = polled ++ rest ∧
        res = f channel ((light_reports proto polled).flatMap (samples_of proto))) ∧
    (∀ n (f : Char → List lighthouse_pulse → List Nat → List Nat) cfg channel res rest,
      vl_driver.poll_pnp proto f cfg channel n device = some (res, rest) →
      ∃ polled, device = polled ++ rest ∧
        res = f channel ((light_reports proto polled).flatMap (samples_of proto)) cfg) ∧
    (∀ n1 n2 (f : Char → List lighthouse_pulse → List Nat) c1 c2 res1 rest1 res2 rest2,
      vl_driver.poll_angles proto f c1 n1 device = some (res1, rest1) →
      vl_driver.poll_angles proto f c2 n2 rest1 = some (res2, rest2) →
      ∃ polled1 polled2, device = polled1 ++ (polled2 ++ rest2) ∧
        res1 = f c1 ((light_reports proto polled1).flatMap (samples_of proto)) ∧
        res2 = f c2 ((light_reports proto polled2).flatMap (samples_of proto))) ∧
    (∀ n1 n2 (f : Char → List lighthouse_pulse → List Nat → List Nat) cfg c1 c2
        res1 rest1 res2 rest2,
      vl_driver.poll_pnp proto f cfg c1 n1 device = some (res1, rest1) →
      vl_driver.poll_pnp proto f cfg c2 n2 rest1 = some (res2, rest2) →
      ∃ polled1 polled2, device = polled1 ++ (polled2 ++ rest2) ∧
        res1 = f c1 ((light_reports proto polled1).flatMap (samples_of proto)) cfg ∧
        res2 = f c2 ((light_reports proto polled2).flatMap (samples_of proto)) cfg) := by
  have hang : ∀ (dev : List (Option hid_report)) n
      (f : Char → List lighthouse_pulse → List Nat) channel res rest,
      vl_driver.poll_angles proto f channel n dev = some (res, rest) →
      ∃ polled, dev = polled ++ rest ∧
        res = f channel ((light_reports proto polled).flatMap (samples_of proto)) := by
    intro dev n f channel res rest h
    obtain ⟨batch, hb, hres⟩ := poll_angles_some proto f channel n dev res rest h
    obtain ⟨polled, hdev, hbatch⟩ := poll_loop_contents proto n dev [] batch rest hb
    exact ⟨polled, hdev, by rw [hres, hbatch, List.nil_append]⟩
  have hpnp : ∀ (dev : List (Option hid_report)) n
      (f : Char → List lighthouse_pulse → List Nat → List Nat) cfg channel res rest,
      vl_driver.poll_pnp proto f cfg channel n dev = some (res, rest) →
      ∃ polled, dev = polled ++ rest ∧
        res = f channel ((light_reports proto polled).flatMap (samples_of proto)) cfg := by
    intro dev n f cfg channel res rest h
    obtain ⟨batch, hb, hres⟩ := poll_pnp_some proto f cfg channel n dev res rest h
    obtain ⟨polled, hdev, hbatch⟩ := poll_loop_contents proto n dev [] batch rest hb
    exact ⟨polled, hdev, by rw [hres, hbatch, List.nil_append]⟩
  refine ⟨?_, by decide, ?_, ?_, hang device, hpnp device, ?_, ?_⟩
  · intro raw r h
    rw [read_hmd_light_eq]
    simp [h, samples_of]
  · intro raw r h
    rw [read_hmd_light_eq]
    simp [h]
  · intro raw
    rfl
  · intro n1 n2 f c1 c2 res1 rest1 res2 rest2 h1 h2
    obtain ⟨polled1, hd1, hr1⟩ := hang device n1 f c1 res1 rest1 h1
    obtain ⟨polled2, hd2, hr2⟩ := hang rest1 n2 f c2 res2 rest2 h2
    exact ⟨polled1, polled2, by rw [hd1, hd2], hr1, hr2⟩
  · intro n1 n2 f cfg c1 c2 res1 rest1 res2 rest2 h1 h2
    obtain ⟨polled1, hd1, hr1⟩ := hpnp device n1 f cfg c1 res1 rest1 h1
    obtain ⟨polled2, hd2, hr2⟩ := hpnp rest1 n2 f cfg c2 res2 rest2 h2
    exact ⟨polled1, polled2, by rw [hd1, hd2], hr1, hr2⟩

/-- Witness for C10: `poll_angles` with target 10 on the demo outcomes hands downstream
the samples of the first two light reports, in arrival order, and nothing of the IMU
report polled between them. -/
theorem C10_batch_contents_witness :
    vl_driver.poll_angles demo_protocol (fun _ batch => batch.map (fun s => s.timestamp))
        'A' 10 demo_device =
      some ([100, 101, 102, 103, 104, 105, 106, 107, 108,
             200, 201, 202, 203, 204, 205, 206, 207, 208], [some ⟨37, [300]⟩]) ∧
    ∃ polled, demo_device = polled ++ [some ⟨37, [300]⟩] ∧
      [100, 101, 102, 103, 104, 105, 106, 107, 108,
        200, 201, 202, 203, 204, 205, 206, 207, 208] =
        ((light_reports demo_protocol polled).flatMap (samples_of demo_protocol)).map
          (fun s => s.timestamp) :=
  ⟨by decide,
   (C10_batch_contents demo_protocol demo_device).2.2.2.2.1 10
     (fun _ batch => batch.map (fun s => s.timestamp)) 'A' _ _ (by decide)⟩

/-! ### Opening the devices -/

/-- A matching device info whose `hid_open_path` returns `NULL` sends `open_device_idx`
into `_hid_to_unix_path`, whose behaviour is undefined: it does not return `NULL`. -/
theorem open_device_idx_open_path_null (w : hid_world) (manufacturer product : Nat)
    (path : Nat) (rest : List Nat) (iface_tot : Nat)
    (henum : w.hid_enumerate manufacturer product = path :: rest)
    (hopen : w.hid_open_path path = none) :
    open_device_idx w manufacturer product 0 iface_tot 0 =
      Except.error abort.undefined_behaviour := by
  simp [open_device_idx, henum, open_device_scan, hopen]

/-- C12 (evaluation): `log_hmd_light` polls the light-sensor handle between
`mutex_hmd_device.lock()` and `mutex_hmd_device.unlock()`, but `poll_angles` and
`poll_pnp` poll it without acquiring the mutex: whenever their loop runs at least once,
their first poll happens while the mutex is not held by them. -/
theorem C12_poll_paths_skip_lock :
    queries_locked false vl_driver.log_hmd_light_events = true ∧
    (∀ (proto : light_protocol) (n : Nat) (polled : Option hid_report)
        (rest : List (Option hid_report)), 0 < n →
      queries_locked false (vl_driver.poll_angles_events proto n (polled :: rest)) = false ∧
      light_event.lock ∉ vl_driver.poll_angles_events proto n (polled :: rest) ∧
      queries_locked false (vl_driver.poll_pnp_events proto n (polled :: rest)) = false ∧
      light_event.lock ∉ vl_driver.poll_pnp_events proto n (polled :: rest)) ∧
    vl_driver.poll_angles_events demo_protocol 10 demo_device =
      [light_event.query, light_event.query, light_event.query, light_event.query,
       light_event.query] ∧
    queries_locked false (vl_driver.poll_angles_events demo_protocol 10 demo_device) = false ∧
    queries_locked false (vl_driver.poll_pnp_events demo_protocol 10 demo_device) = false := by
  have hnolock : ∀ (proto : light_protocol) (n : Nat) (device : List (Option hid_report))
      (raw : List lighthouse_pulse), light_event.lock ∉ poll_loop_events proto n raw device := by
    intro proto n device
    induction device with
    | nil =>
      intro raw
      simp [poll_loop_events]
    | cons p ps ih =>
      intro raw
      unfold poll_loop_events
      split_ifs
      · simp only [List.mem_cons, not_or]
        exact ⟨by decide, ih _⟩
      · simp
  refine ⟨by decide, ?_, by decide, by decide, by decide⟩
  intro proto n polled rest hn
  have hq : poll_loop_events proto n [] (polled :: rest) =
      light_event.query ::
        poll_loop_events proto n (hid_query polled (read_hmd_light proto) []) rest := by
    rw [poll_loop_events]
    simp [hn]
  refine ⟨?_, hnolock proto n _ [], ?_, hnolock proto n _ []⟩
  · simp [vl_driver.poll_angles_events, hq, queries_locked]
  · simp [vl_driver.poll_pnp_events, hq, queries_locked]

/-! ### Rotated runs of consecutive sequence numbers -/

/-- C13: for every `n` (in particular every 8-bit `n`) and every rotation `r` in 0, 1, 2,
if the three slots of a packet hold the three consecutive 8-bit sequence numbers
`n`, `n + 1`, `n + 2` (modulo 256, so runs that wrap past 255 are included) rotated by
`r`, that is
`seq[(r + k) mod 3] = (n + k) mod 256` for `k = 0, 1, 2`, then
`get_lowest_index(seq[0], seq[1], seq[2]) = r`, and `_update_pose` visits the samples in
the order of the sequence numbers `n`, `n + 1`, `n + 2`. -/
theorem C13_rotated_run_lowest_index (pkt : vive_headset_imu_report) (n r : Nat)
    (hr : r < 3)
    (h : ∀ k, k < 3 →
      (pkt.samples ⟨(r + k) % 3, Nat.mod_lt _ (by decide)⟩).seq = (n + k) % 256) :
    get_lowest_index (pkt.samples 0).seq (pkt.samples 1).seq (pkt.samples 2).seq = r ∧
    (∀ k, k < 3 → (pkt.samples (vl_driver.index_at pkt k)).seq = (n + k) % 256) ∧
    vl_driver._update_pose pkt =
      fun drv => [vl_driver.index_at pkt 0, vl_driver.index_at pkt 1,
        vl_driver.index_at pkt 2].foldl (vl_driver.process_sample pkt) drv := by
  have hli : get_lowest_index (pkt.samples 0).seq (pkt.samples 1).seq (pkt.samples 2).seq = r := by
    interval_cases r
    · have h0 : (pkt.samples 0).seq = (n + 0) % 256 := h 0 (by decide)
      have h1 : (pkt.samples 1).seq = (n + 1) % 256 := h 1 (by decide)
      have h2 : (pkt.samples 2).seq = (n + 2) % 256 := h 2 (by decide)
      rw [h0, h1, h2]
      unfold get_lowest_index
      simp only [beq_iff_eq]
      split_ifs <;> omega
    · have h0 : (pkt.samples 1).seq = (n + 0) % 256 := h 0 (by decide)
      have h1 : (pkt.samples 2).seq = (n + 1) % 256 := h 1 (by decide)
      have h2 : (pkt.samples 0).seq = (n + 2) % 256 := h 2 (by decide)
      rw [h0, h1, h2]
      unfold get_lowest_index
      simp only [beq_iff_eq]
      split_ifs <;> omega
    · have h0 : (pkt.samples 2).seq = (n + 0) % 256 := h 0 (by decide)
      have h1 : (pkt.samples 0).seq = (n + 1) % 256 := h 1 (by decide)
      have h2 : (pkt.samples 1).seq = (n + 2) % 256 := h 2 (by decide)
      rw [h0, h1, h2]
      unfold get_lowest_index
      simp only [beq_iff_eq]
      split_ifs <;> omega
  refine ⟨hli, ?_, funext fun drv => update_pose_eq_foldl pkt drv⟩
  intro k hk
  have hidx : vl_driver.index_at pkt k = ⟨(r + k) % 3, Nat.mod_lt _ (by decide)⟩ :=
    Fin.ext (by simp [vl_driver.index_at, vl_driver.lowest_index, hli])
  rw [hidx]
  exact h k hk

/-- Witness for C13: the run 254, 255, 0 wraps past 255 and sits rotated by 1 in the
slots (`seq = [0, 254, 255]`); the lowest index is 1. -/
theorem C13_rotated_run_lowest_index_witness :
    (1 < 3 ∧
      ∀ k, k < 3 →
        ((imu_report 0 254 255 300 100 200).samples
          ⟨(1 + k) % 3, Nat.mod_lt _ (by decide)⟩).seq = (254 + k) % 256) ∧
    get_lowest_index ((imu_report 0 254 255 300 100 200).samples 0).seq
      ((imu_report 0 254 255 300 100 200).samples 1).seq
      ((imu_report 0 254 255 300 100 200).samples 2).seq = 1 :=
  ⟨⟨by decide, by decide⟩,
   (C13_rotated_run_lowest_index (imu_report 0 254 255 300 100 200) 254 1 (by decide)
     (by decide)).1⟩

end OpenHMD
